import Mathlib

/-!
Shallow embedding of the document-management backend
(`backend/organizations/permissions.py`, `backend/organizations/schema.py`,
`backend/documents/mcp_server.py`, `backend/documents/llm_service.py`,
`backend/documents/schema.py`, and the data model of
`backend/organizations/models.py`, `backend/documents/models.py`,
`backend/users/models.py`).

Database rows are embedded as Lean structures, the database as lists of rows,
and each GraphQL mutation as a state-passing function `DB → ... → DB × Except e a`
that returns the (possibly updated) database together with either the resolver
result or the raised error.  Machine-level details (autoincrement ids, SQL) are
abstracted: ids are `Nat` parameters of the rows.
-/

/-- Role choices of `OrganizationMembership.Role` (organizations/models.py). -/
inductive Role where
  | ADMIN
  | MEMBER
deriving DecidableEq, Repr

/-- Django renders a `TextChoices` value as its string value in f-strings. -/
def Role.valueStr : Role → String
  | .ADMIN => "ADMIN"
  | .MEMBER => "MEMBER"

/-- A naive `datetime` with zero microseconds, as stored in `created_at`
columns (`auto_now_add`).  Only the fields that `isoformat` serializes are
modelled. -/
structure Timestamp where
  year : Nat
  month : Nat
  day : Nat
  hour : Nat
  minute : Nat
  second : Nat
deriving DecidableEq, Repr

/-- Zero-pad a number to two digits, as `datetime.isoformat` does. -/
def pad2 (n : Nat) : String :=
  if n < 10 then "0" ++ toString n else toString n

/-- Zero-pad a year to four digits, as `datetime.isoformat` does. -/
def pad4 (n : Nat) : String :=
  if n < 10 then "000" ++ toString n
  else if n < 100 then "00" ++ toString n
  else if n < 1000 then "0" ++ toString n
  else toString n

/-- Python `datetime.isoformat()` for a naive timestamp with zero
microseconds: `YYYY-MM-DDTHH:MM:SS`. -/
def Timestamp.isoformat (t : Timestamp) : String :=
  pad4 t.year ++ "-" ++ pad2 t.month ++ "-" ++ pad2 t.day ++ "T" ++
    pad2 t.hour ++ ":" ++ pad2 t.minute ++ ":" ++ pad2 t.second

/-- Python `str.strip()` with no argument: removes leading and trailing
whitespace characters.  Embedded over the string's character list so that it
evaluates by kernel reduction. -/
def py_strip (s : String) : String :=
  ⟨((s.data.dropWhile Char.isWhitespace).reverse.dropWhile
      Char.isWhitespace).reverse⟩

/-- Python `str.lower()`: lower-cases every character.  Embedded over the
string's character list so that it evaluates by kernel reduction. -/
def py_lower (s : String) : String :=
  ⟨s.data.map Char.toLower⟩

/-- Row of the custom `User` model (users/models.py): unique email,
`is_authenticated` from the auth framework, and the nullable
`active_organization_id` integer column. -/
structure User where
  id : Nat
  email : String
  is_authenticated : Bool
  active_organization_id : Option Nat
deriving DecidableEq, Repr

/-- Row of `Organization` (organizations/models.py). -/
structure Organization where
  id : Nat
  name : String
deriving DecidableEq, Repr

/-- Row of `OrganizationMembership` (organizations/models.py): foreign keys
stored as ids plus the role. -/
structure OrganizationMembership where
  user : Nat
  organization : Nat
  role : Role
deriving DecidableEq, Repr

/-- Row of `Document` (documents/models.py): the organization foreign key is
non-null, `created_by` is nullable (SET_NULL). -/
structure Document where
  id : Nat
  title : String
  content : String
  organization : Nat
  created_by : Option Nat
  created_at : Timestamp
deriving DecidableEq, Repr

/-- Row of `AIConversation` (documents/models.py). -/
structure AIConversation where
  document : Nat
  user : Nat
  question : String
  answer : String
deriving DecidableEq, Repr

/-- The relational store: one list of rows per table. -/
structure DB where
  organizations : List Organization
  users : List User
  memberships : List OrganizationMembership
  documents : List Document
  conversations : List AIConversation
deriving DecidableEq, Repr

/-- `Organization.objects.get(id=...)` embedded as a first-match lookup. -/
def findOrganization (db : DB) (organization_id : Nat) : Option Organization :=
  db.organizations.find? (fun o => o.id == organization_id)

/-- `Document.objects.get(id=...)` embedded as a first-match lookup. -/
def findDocument (db : DB) (document_id : Nat) : Option Document :=
  db.documents.find? (fun d => d.id == document_id)

/-- `User.objects.get(id=...)` embedded as a first-match lookup. -/
def findUser (db : DB) (user_id : Nat) : Option User :=
  db.users.find? (fun u => u.id == user_id)

/-- The membership filter `user=user, organization_id=organization_id`. -/
def membershipMatches (user_id organization_id : Nat)
    (m : OrganizationMembership) : Bool :=
  m.user == user_id && m.organization == organization_id

/-- `check_user_in_organization` (organizations/permissions.py): a
`filter(...).exists()` query. -/
def check_user_in_organization (db : DB) (user_id organization_id : Nat) : Bool :=
  db.memberships.any (membershipMatches user_id organization_id)

/-- `get_user_role_in_organization` (organizations/permissions.py): the
`.get` call returns the unique matching membership, embedded as the first
match; unique under the model's `unique_together` constraint. -/
def get_user_role_in_organization (db : DB) (user_id organization_id : Nat) :
    Option Role :=
  (db.memberships.find? (membershipMatches user_id organization_id)).map
    OrganizationMembership.role

/-- The raise sites of the source's `PermissionError` grouped by the three
failure kinds of the spec taxonomy; each constructor carries the message the
source formats. -/
inductive PermissionError where
  | notAMember (message : String)
  | insufficientRole (message : String)
  | noActiveOrganization (message : String)
deriving DecidableEq, Repr

/-- `str(e)` of a `PermissionError`. -/
def PermissionError.message : PermissionError → String
  | .notAMember m => m
  | .insufficientRole m => m
  | .noActiveOrganization m => m

/-- The `try Organization.objects.get ... except DoesNotExist` fallback used
when formatting permission error messages. -/
def organization_display_name (db : DB) (organization_id : Nat) : String :=
  match findOrganization db organization_id with
  | some org => org.name
  | none => "Organization " ++ toString organization_id

/-- `require_organization_member` (organizations/permissions.py). -/
def require_organization_member (db : DB) (user_id organization_id : Nat) :
    Except PermissionError Unit :=
  if check_user_in_organization db user_id organization_id then .ok ()
  else
    .error (.notAMember ("User is not a member of organization \x22" ++
      organization_display_name db organization_id ++ "\x22. Access denied."))

/-- `require_organization_admin` (organizations/permissions.py): reads the
role, succeeds only on ADMIN, distinguishes the no-membership raise from the
wrong-role raise. -/
def require_organization_admin (db : DB) (user_id organization_id : Nat) :
    Except PermissionError Unit :=
  match get_user_role_in_organization db user_id organization_id with
  | some Role.ADMIN => .ok ()
  | none =>
      .error (.notAMember ("User is not a member of organization \x22" ++
        organization_display_name db organization_id ++
        "\x22. Only administrators can perform this action."))
  | some role =>
      .error (.insufficientRole ("User must be an ADMIN in organization \x22" ++
        organization_display_name db organization_id ++
        "\x22 to perform this action. Current role: " ++ role.valueStr ++ "."))

/-- `require_active_organization` (organizations/permissions.py).  The
source's `if not user.active_organization_id` is a Python truthiness test, so
both `None` and `0` count as unset. -/
def require_active_organization (db : DB) (user : User) :
    Except PermissionError Nat :=
  match user.active_organization_id with
  | none =>
      .error (.noActiveOrganization
        "No active organization selected. Please select an organization to continue.")
  | some organization_id =>
      if organization_id == 0 then
        .error (.noActiveOrganization
          "No active organization selected. Please select an organization to continue.")
      else
        match require_organization_member db user.id organization_id with
        | .error e => .error e
        | .ok _ => .ok organization_id

/-- `require_document_access` (organizations/permissions.py) delegates to
`require_organization_member`. -/
def require_document_access (db : DB) (user_id document_organization_id : Nat) :
    Except PermissionError Unit :=
  require_organization_member db user_id document_organization_id

/-- The dictionary returned by `MCPServer.get_document_context`
(documents/mcp_server.py): tagged `document_context` on success and `error`
when the document does not exist. -/
inductive MCPContext where
  | document_context (document_id : Nat) (title content : String)
      (organization_id : Nat) (organization_name : String)
      (created_at : String) (created_by : Option String)
  | error (message : String)
deriving DecidableEq, Repr

/-- `context.get('type') == 'error'`. -/
def MCPContext.isAbsent : MCPContext → Bool
  | .error _ => true
  | _ => false

/-- `document.created_by.email if document.created_by else None`: the
creator's email, looked up through the nullable foreign key. -/
def created_by_email (db : DB) (document : Document) : Option String :=
  document.created_by.bind (fun uid => (findUser db uid).map User.email)

/-- `MCPServer.get_document_context` (documents/mcp_server.py): loads the
document with its organization and structures it as a tagged context record;
a missing document yields the error-tagged record instead of a raise. -/
def get_document_context (db : DB) (document_id : Nat) : MCPContext :=
  match findDocument db document_id with
  | some document =>
      match findOrganization db document.organization with
      | some org =>
          .document_context document.id document.title document.content
            document.organization org.name document.created_at.isoformat
            (created_by_email db document)
      -- the next branch is unreachable when the database satisfies the
      -- non-null `organization` foreign key of Document
      | none => .error ("Document " ++ toString document_id ++ " not found")
  | none => .error ("Document " ++ toString document_id ++ " not found")

/-- An f-string interpolation of an optional value: Python renders `None`
as the string `None`. -/
def pyOptionStr : Option String → String
  | some s => s
  | none => "None"

/-- `MCPServer.format_context_for_mcp` (documents/mcp_server.py): the
fixed-template serialization of a context dictionary; error-tagged contexts
render as their message. -/
def format_context_for_mcp : MCPContext → String
  | .document_context document_id title content organization_id
      organization_name created_at created_by =>
      "Document Context (MCP):\nTitle: " ++ title ++
        "\nContent:\n" ++ content ++
        "\n\nMetadata:\n- Document ID: " ++ toString document_id ++
        "\n- Organization ID: " ++ toString organization_id ++
        "\n- Organization Name: " ++ organization_name ++
        "\n- Created: " ++ created_at ++
        "\n- Created By: " ++ pyOptionStr created_by ++ "\n"
  | .error message => message

/-- `MCPContextProvider.provide_document_context` (documents/mcp_server.py):
raises `ValueError(message)` (embedded as `Except.error`) when the context is
error-tagged, otherwise returns the formatted context string. -/
def provide_document_context (db : DB) (document_id : Nat) :
    Except String String :=
  match get_document_context db document_id with
  | .error message => .error message
  | context => .ok (format_context_for_mcp context)

/-- Outcome of the one network call a backend adapter would make: the raw
response text of the provider SDK, or the detail of the exception the SDK
raised.  The adapters are the only code that performs network traffic. -/
inductive ProviderResponse where
  | ok (text : String)
  | fail (detail : String)
deriving DecidableEq, Repr

/-- The exceptions `LLMService` raises, grouped by raise site: the
`ValueError` propagated from the MCP provider (context unavailable), the
`ValueError` for an unknown provider identifier, and the wrapped backend
exception. -/
inductive LLMError where
  | contextUnavailable (message : String)
  | unsupportedProvider (message : String)
  | providerError (message : String)
deriving DecidableEq, Repr

/-- `str(e)` of an `LLMError`. -/
def LLMError.message : LLMError → String
  | .contextUnavailable m => m
  | .unsupportedProvider m => m
  | .providerError m => m

/-- `LLMService._call_openai` (documents/llm_service.py): returns the
response content stripped, or wraps the SDK failure. -/
def LLMService_call_openai (response : ProviderResponse) :
    Except LLMError String :=
  match response with
  | .ok text => .ok (py_strip text)
  | .fail detail => .error (.providerError ("OpenAI API error: " ++ detail))

/-- `LLMService._call_anthropic` (documents/llm_service.py). -/
def LLMService_call_anthropic (response : ProviderResponse) :
    Except LLMError String :=
  match response with
  | .ok text => .ok (py_strip text)
  | .fail detail => .error (.providerError ("Anthropic API error: " ++ detail))

/-- `LLMService._call_gemini` (documents/llm_service.py). -/
def LLMService_call_gemini (response : ProviderResponse) :
    Except LLMError String :=
  match response with
  | .ok text => .ok (py_strip text)
  | .fail detail => .error (.providerError ("Gemini API error: " ++ detail))

/-- `LLMService._call_llm_provider` (documents/llm_service.py): dispatch on
the provider identifier.  The first component records which backends were
contacted over the network (empty when no call is attempted); the second is
the returned text or raised error. -/
def LLMService_call_llm_provider (provider prompt : String)
    (response : ProviderResponse) : List String × Except LLMError String :=
  if provider = "openai" then (["openai"], LLMService_call_openai response)
  else if provider = "anthropic" then
    (["anthropic"], LLMService_call_anthropic response)
  else if provider = "gemini" then
    (["gemini"], LLMService_call_gemini response)
  else
    ([], .error (.unsupportedProvider ("Unsupported LLM provider: " ++
      provider ++ ". Supported providers: openai, anthropic, gemini")))

/-- The three `LLM_*` settings (config/settings.py) consumed by
`LLMService.__init__`. -/
structure LLMSettings where
  LLM_API_KEY : String
  LLM_PROVIDER : String
  LLM_MODEL : String
deriving DecidableEq, Repr

/-- `LLMService.__init__` (documents/llm_service.py): lower-cases the
provider identifier and raises `ValueError` when the API key is empty
(falsy).  Returns the provider identifier the service will dispatch on. -/
def LLMService_init (s : LLMSettings) : Except String String :=
  if s.LLM_API_KEY = "" then
    .error ("LLM_API_KEY environment variable is required. " ++
      "Please set it in your .env file.")
  else .ok (py_lower s.LLM_PROVIDER)

/-- The fixed instruction suffix of the prompt built by
`LLMService.ask_question`. -/
def prompt_instructions : String :=
  "Please answer the user\x27s question based on the document context provided above.\nBe concise, accurate, and helpful. If the answer cannot be determined from the\ndocument context, please state that clearly."

/-- The prompt `LLMService.ask_question` composes from the MCP context and
the question. -/
def build_prompt (mcp_context question : String) : String :=
  mcp_context ++ "\n\nUser Question: " ++ question ++ "\n\n" ++
    prompt_instructions

/-- `LLMService.ask_question` (documents/llm_service.py): obtains MCP
context (propagating its `ValueError`), composes the prompt, and dispatches
to the configured provider.  `provider` is the service's lower-cased
identifier; `response` is the outcome of the backend's network call. -/
def LLMService_ask_question (db : DB) (provider : String) (document_id : Nat)
    (question : String) (response : ProviderResponse) :
    List String × Except LLMError String :=
  match provide_document_context db document_id with
  | .error message => ([], .error (.contextUnavailable message))
  | .ok mcp_context =>
      LLMService_call_llm_provider provider (build_prompt mcp_context question)
        response

/-- Errors escaping a GraphQL resolver: the `GraphQLError`s the source
raises, carrying the extension code and message, and a Python `NameError`
for evaluation of a name that is not bound in the module (not caught by the
resolvers' `except PermissionError` clauses). -/
inductive ResolverError where
  | graphql (code message : String)
  | nameError (message : String)
deriving DecidableEq, Repr

/-- `CreateDocument.mutate` (documents/schema.py).  After the active
organization check, line 305 evaluates the name `require_organization_admin`;
the module's import list (documents/schema.py lines 13-18) imports only
`require_active_organization`, `require_organization_member`,
`require_document_access` and `PermissionError`, so CPython raises
`NameError` there, which the surrounding `except PermissionError` clause does
not catch.  Control never reaches the title/content validation or
`Document.objects.create` (lines 312-331). -/
def CreateDocument_mutate (db : DB) (user : User) (title content : String) :
    DB × Except ResolverError Document :=
  if user.is_authenticated = false then
    (db, .error (.graphql "UNAUTHORIZED" "Authentication required."))
  else
    match require_active_organization db user with
    | .error e => (db, .error (.graphql "PERMISSION_DENIED" e.message))
    | .ok _organization_id =>
        (db, .error (.nameError
          "name \x27require_organization_admin\x27 is not defined"))

/-- `AskDocumentAIQuestion.mutate` (documents/schema.py): auth check,
document lookup, membership check on the document's organization, question
validation, LLM call (any raised exception becomes an `LLM_ERROR`
`GraphQLError` and nothing is persisted), then
`AIConversation.objects.create` with the stripped question.  `settings` and
`response` supply the LLM configuration and the backend network outcome. -/
def AskDocumentAIQuestion_mutate (db : DB) (user : User) (document_id : Nat)
    (question : String) (settings : LLMSettings)
    (response : ProviderResponse) : DB × Except ResolverError AIConversation :=
  if user.is_authenticated = false then
    (db, .error (.graphql "UNAUTHORIZED" "Authentication required."))
  else
    match findDocument db document_id with
    | none =>
        (db, .error (.graphql "NOT_FOUND"
          ("Document " ++ toString document_id ++ " not found.")))
    | some document =>
        match require_document_access db user.id document.organization with
        | .error e => (db, .error (.graphql "PERMISSION_DENIED" e.message))
        | .ok _ =>
            if (py_strip question) = "" then
              (db, .error (.graphql "INVALID_INPUT" "Question cannot be empty."))
            else
              match LLMService_init settings with
              | .error m =>
                  (db, .error (.graphql "LLM_ERROR" ("Error calling LLM: " ++ m)))
              | .ok provider =>
                  match (LLMService_ask_question db provider document_id
                      (py_strip question) response).2 with
                  | .error e =>
                      (db, .error (.graphql "LLM_ERROR"
                        ("Error calling LLM: " ++ e.message)))
                  | .ok answer =>
                      let conversation : AIConversation :=
                        ⟨document_id, user.id, (py_strip question), answer⟩
                      ({ db with
                          conversations := db.conversations ++ [conversation] },
                        .ok conversation)

/-- `SetActiveOrganization.mutate` (organizations/schema.py): membership
check, organization existence check, then persists
`active_organization_id` on the user row via
`user.save(update_fields=['active_organization_id'])`. -/
def SetActiveOrganization_mutate (db : DB) (user : User)
    (organization_id : Nat) : DB × Except ResolverError (Bool × Organization) :=
  if user.is_authenticated = false then
    (db, .error (.graphql "UNAUTHORIZED" "Authentication required."))
  else if check_user_in_organization db user.id organization_id = false then
    (db, .error (.graphql "PERMISSION_DENIED"
      ("User is not a member of organization " ++ toString organization_id ++ ".")))
  else
    match findOrganization db organization_id with
    | none =>
        (db, .error (.graphql "NOT_FOUND"
          ("Organization " ++ toString organization_id ++ " not found.")))
    | some organization =>
        ({ db with
            users := db.users.map (fun u =>
              if u.id == user.id then
                { u with active_organization_id := some organization_id }
              else u) },
          .ok (true, organization))

/-- `membership.save(update_fields=['role'])` after `membership.role = role`:
updates the role of the (unique) matching membership row in place. -/
def update_membership_role (memberships : List OrganizationMembership)
    (user_id organization_id : Nat) (role : Role) :
    List OrganizationMembership :=
  match memberships with
  | [] => []
  | m :: rest =>
      if membershipMatches user_id organization_id m then
        { m with role := role } :: rest
      else m :: update_membership_role rest user_id organization_id role

/-- `InviteUserToOrganization.mutate` (organizations/schema.py): admin check,
organization and user lookups, role validation, then
`OrganizationMembership.objects.get_or_create` with the role as default,
updating the existing row's role when the membership already existed. -/
def InviteUserToOrganization_mutate (db : DB) (user : User)
    (organization_id : Nat) (user_email role_str : String) :
    DB × Except ResolverError OrganizationMembership :=
  if user.is_authenticated = false then
    (db, .error (.graphql "UNAUTHORIZED" "Authentication required."))
  else
    match require_organization_admin db user.id organization_id with
    | .error e => (db, .error (.graphql "PERMISSION_DENIED" e.message))
    | .ok _ =>
        match findOrganization db organization_id with
        | none =>
            (db, .error (.graphql "NOT_FOUND"
              ("Organization " ++ toString organization_id ++ " not found.")))
        | some organization =>
            match db.users.find? (fun u => u.email == user_email) with
            | none =>
                (db, .error (.graphql "USER_NOT_FOUND"
                  ("User with email " ++ user_email ++ " does not exist.")))
            | some invite_user =>
                if role_str = "ADMIN" ∨ role_str = "MEMBER" then
                  let role : Role :=
                    if role_str = "ADMIN" then Role.ADMIN else Role.MEMBER
                  match db.memberships.find?
                      (membershipMatches invite_user.id organization.id) with
                  | some membership =>
                      if membership.role = role then (db, .ok membership)
                      else
                        ({ db with
                            memberships := update_membership_role db.memberships
                              invite_user.id organization.id role },
                          .ok { membership with role := role })
                  | none =>
                      let membership : OrganizationMembership :=
                        ⟨invite_user.id, organization.id, role⟩
                      ({ db with memberships := db.memberships ++ [membership] },
                        .ok membership)
                else
                  (db, .error (.graphql "INVALID_INPUT"
                    ("Invalid role: " ++ role_str ++
                      ". Must be one of: ADMIN, MEMBER.")))

/-! Concrete fixtures used to instantiate the theorems on executable data. -/

/-- A sample organization. -/
def orgAcme : Organization := ⟨1, "Acme"⟩

/-- A sample creation timestamp. -/
def tsSample : Timestamp := ⟨2024, 5, 3, 9, 30, 0⟩

/-- An authenticated ADMIN of organization 1. -/
def adminUser : User := ⟨1, "admin@acme.test", true, some 1⟩

/-- An authenticated MEMBER (not ADMIN) of organization 1 with active
organization 1. -/
def memberUser : User := ⟨2, "member@acme.test", true, some 1⟩

/-- An authenticated user with no memberships. -/
def strangerUser : User := ⟨3, "stranger@acme.test", true, none⟩

/-- A sample document of organization 1 created by user 1. -/
def docPlan : Document :=
  ⟨7, "Launch Plan", "The deadline is Friday.", 1, some 1, tsSample⟩

/-- The sample database. -/
def dbSample : DB :=
  ⟨[orgAcme], [adminUser, memberUser, strangerUser],
    [⟨1, 1, Role.ADMIN⟩, ⟨2, 1, Role.MEMBER⟩], [docPlan], []⟩

/-- Sample LLM settings selecting the openai backend. -/
def settingsSample : LLMSettings := ⟨"test-key", "openai", "gpt-4-turbo-preview"⟩

deriving instance DecidableEq for Except

/-- Spec-side rendering, written from the spec's words (§4.2): a plain-text
serialization with the fixed field order Title, Content, then a Metadata
block listing Document ID, Organization ID, Organization Name, Created,
Created By.  To be compared against the source's
`format_context_for_mcp`. -/
def render_fixed_field_order (document_id : Nat) (title content : String)
    (organization_id : Nat) (organization_name created_at : String)
    (created_by : Option String) : String :=
  "Document Context (MCP):\n" ++
    "Title: " ++ title ++ "\n" ++
    "Content:\n" ++ content ++ "\n" ++
    "\n" ++
    "Metadata:\n" ++
    "- Document ID: " ++ toString document_id ++ "\n" ++
    "- Organization ID: " ++ toString organization_id ++ "\n" ++
    "- Organization Name: " ++ organization_name ++ "\n" ++
    "- Created: " ++ created_at ++ "\n" ++
    "- Created By: " ++ pyOptionStr created_by ++ "\n"

/-! Theorems. -/

/-- Claim C1: for every document id, `provide_document_context` fails (raises
`ValueError`, the `ContextUnavailable` failure) exactly when
`get_document_context` returns the absent-tagged record, and otherwise
returns `format_context_for_mcp` applied to the context record that
`get_document_context` produced for that id. -/
theorem C1_provide_context_fails_iff_absent (db : DB) (document_id : Nat) :
    ((∃ m, provide_document_context db document_id = .error m) ↔
      (get_document_context db document_id).isAbsent = true) ∧
    (∀ context, get_document_context db document_id = context →
      context.isAbsent = false →
      provide_document_context db document_id =
        .ok (format_context_for_mcp context)) := by
  cases h : get_document_context db document_id with
  | error m =>
      refine ⟨⟨fun _ => rfl, fun _ => ⟨m, ?_⟩⟩, fun context hc habs => ?_⟩
      · simp [provide_document_context, h]
      · subst hc
        simp [MCPContext.isAbsent] at habs
  | document_context a b c d e f g =>
      refine ⟨⟨fun ⟨m, hm⟩ => ?_, fun habs => ?_⟩, fun context hc _ => ?_⟩
      · simp [provide_document_context, h] at hm
      · simp [MCPContext.isAbsent] at habs
      · subst hc
        simp [provide_document_context, h]

/-- Witness for C1 at a concrete input: document 999 does not exist in the
sample database, and `provide_document_context` fails on it. -/
theorem C1_witness :
    ∃ m, provide_document_context dbSample 999 = .error m :=
  (C1_provide_context_fails_iff_absent dbSample 999).1.mpr (by decide)

/-- Claim C8: `format_context_for_mcp` is a deterministic pure function —
identical context input yields identical output — and on document contexts
its output is exactly the serialization with the fixed field order Title,
Content, then the Metadata block (Document ID, Organization ID, Organization
Name, Created, Created By). -/
theorem C8_render_deterministic_fixed_order :
    (∀ c1 c2 : MCPContext, c1 = c2 →
      format_context_for_mcp c1 = format_context_for_mcp c2) ∧
    (∀ (document_id : Nat) (title content : String) (organization_id : Nat)
        (organization_name created_at : String) (created_by : Option String),
      format_context_for_mcp
          (.document_context document_id title content organization_id
            organization_name created_at created_by) =
        render_fixed_field_order document_id title content organization_id
          organization_name created_at created_by) := by
  constructor
  · exact fun _ _ h => h ▸ rfl
  · intro document_id title content organization_id organization_name
      created_at created_by
    have h1 : ∀ X : String,
        "Document Context (MCP):\n" ++ ("Title: " ++ X) =
          "Document Context (MCP):\nTitle: " ++ X := by
      intro X; rw [← String.append_assoc]; congr 1
    have h2 : ∀ X : String,
        "\n" ++ ("Content:\n" ++ X) = "\nContent:\n" ++ X := by
      intro X; rw [← String.append_assoc]; congr 1
    have h3 : ∀ X : String,
        "\n" ++ ("\n" ++ ("Metadata:\n" ++ ("- Document ID: " ++ X))) =
          "\n\nMetadata:\n- Document ID: " ++ X := by
      intro X
      rw [← String.append_assoc, ← String.append_assoc, ← String.append_assoc]
      congr 1
    have h4 : ∀ X : String,
        "\n" ++ ("- Organization ID: " ++ X) =
          "\n- Organization ID: " ++ X := by
      intro X; rw [← String.append_assoc]; congr 1
    have h5 : ∀ X : String,
        "\n" ++ ("- Organization Name: " ++ X) =
          "\n- Organization Name: " ++ X := by
      intro X; rw [← String.append_assoc]; congr 1
    have h6 : ∀ X : String,
        "\n" ++ ("- Created: " ++ X) = "\n- Created: " ++ X := by
      intro X; rw [← String.append_assoc]; congr 1
    have h7 : ∀ X : String,
        "\n" ++ ("- Created By: " ++ X) = "\n- Created By: " ++ X := by
      intro X; rw [← String.append_assoc]; congr 1
    simp only [format_context_for_mcp, render_fixed_field_order,
      String.append_assoc, h1, h2, h3, h4, h5, h6, h7]

/-- Witness for C8 at a concrete input. -/
theorem C8_witness :
    format_context_for_mcp (get_document_context dbSample 7) =
      format_context_for_mcp (get_document_context dbSample 7) :=
  C8_render_deterministic_fixed_order.1 _ _ rfl

/-- When the ids of a list of rows are pairwise distinct, looking a row up by
its own id finds exactly that row. -/
theorem find?_id_eq_some_of_mem {α : Type} (f : α → Nat) :
    ∀ (l : List α), l.Pairwise (fun a b => f a ≠ f b) → ∀ a ∈ l,
      l.find? (fun x => f x == f a) = some a := by
  intro l
  induction l with
  | nil => intro _ a ha; cases ha
  | cons b rest ih =>
      intro hp a ha
      obtain ⟨hb, hrest⟩ := List.pairwise_cons.mp hp
      rcases List.mem_cons.mp ha with rfl | ha
      · simp [List.find?]
      · have hne : f b ≠ f a := hb a ha
        have : (f b == f a) = false := by simp [hne]
        simp [List.find?, this]
        exact ih hrest a ha

/-- A `find?` over a list with a witness satisfying the predicate is some. -/
theorem find?_isSome_of_exists {α : Type} {p : α → Bool} {l : List α}
    (h : ∃ x ∈ l, p x = true) : ∃ y, l.find? p = some y := by
  cases hf : l.find? p with
  | some y => exact ⟨y, rfl⟩
  | none =>
      obtain ⟨x, hx, hpx⟩ := h
      exact absurd hpx (by simpa using List.find?_eq_none.mp hf x hx)

/-- Claim C5: for every document D of organization O in the database (with
the primary keys unique, as the store enforces), `get_document_context (D.id)`
produces the structured record holding D's id, title and content, O's current
id and name, the ISO-8601 creation timestamp, and the creator's email or
null; and for every id, the result is absent-tagged iff no document with that
id exists (given the non-null organization foreign key). -/
theorem C5_build_context_fields_and_absence (db : DB) (d : Document)
    (org : Organization)
    (huniq_docs : db.documents.Pairwise (fun a b => a.id ≠ b.id))
    (huniq_orgs : db.organizations.Pairwise (fun a b => a.id ≠ b.id))
    (hd : d ∈ db.documents) (horg : org ∈ db.organizations)
    (hdo : org.id = d.organization)
    (hwf : ∀ x ∈ db.documents, ∃ o ∈ db.organizations, o.id = x.organization) :
    get_document_context db d.id =
      .document_context d.id d.title d.content d.organization org.name
        d.created_at.isoformat (created_by_email db d) ∧
    (∀ i : Nat, (get_document_context db i).isAbsent = true ↔
      ¬ ∃ x ∈ db.documents, x.id = i) := by
  constructor
  · have hfd : findDocument db d.id = some d :=
      find?_id_eq_some_of_mem Document.id db.documents huniq_docs d hd
    have hfo : findOrganization db d.organization = some org := by
      have := find?_id_eq_some_of_mem Organization.id db.organizations
        huniq_orgs org horg
      rw [hdo] at this
      exact this
    simp [get_document_context, hfd, hfo]
  · intro i
    constructor
    · intro habs hex
      obtain ⟨x, hx, hxi⟩ := hex
      have hfd : ∃ y, findDocument db i = some y := by
        apply find?_isSome_of_exists
        exact ⟨x, hx, by simp [hxi]⟩
      obtain ⟨y, hy⟩ := hfd
      have hymem : y ∈ db.documents := List.mem_of_find?_eq_some hy
      obtain ⟨o, ho, hoy⟩ := hwf y hymem
      have hfo : ∃ z, findOrganization db y.organization = some z := by
        apply find?_isSome_of_exists
        exact ⟨o, ho, by simp [hoy]⟩
      obtain ⟨z, hz⟩ := hfo
      rw [get_document_context, hy] at habs
      simp [hz, MCPContext.isAbsent] at habs
    · intro hnone
      have hfd : findDocument db i = none := by
        apply List.find?_eq_none.mpr
        intro x hx
        simp only [beq_iff_eq]
        exact fun hxi => hnone ⟨x, hx, hxi⟩
      simp [get_document_context, hfd, MCPContext.isAbsent]

/-- Witness for C5 at a concrete input: document 7 of organization 1 in the
sample database. -/
theorem C5_witness :
    get_document_context dbSample 7 =
      .document_context 7 "Launch Plan" "The deadline is Friday." 1 "Acme"
        "2024-05-03T09:30:00" (some "admin@acme.test") := by
  have h := (C5_build_context_fields_and_absence dbSample docPlan orgAcme
    (by decide) (by decide) (by decide) (by decide) (by decide)
    (by decide)).1
  exact h.trans (by decide)

/-- Claim C6: for every configured provider identifier outside the enumerated
set (the configured value is already lower-case, as config/settings.py
guarantees by applying `.lower()` at startup), the answer operation fails
with the unsupported-provider error, and no provider backend is contacted
over the network for any document id. -/
theorem C6_unknown_provider_no_backend_call (db : DB) (settings : LLMSettings)
    (document_id : Nat) (question : String) (response : ProviderResponse)
    (provider : String)
    (hinit : LLMService_init settings = .ok provider)
    (hlower : py_lower settings.LLM_PROVIDER = settings.LLM_PROVIDER)
    (h1 : settings.LLM_PROVIDER ≠ "openai")
    (h2 : settings.LLM_PROVIDER ≠ "anthropic")
    (h3 : settings.LLM_PROVIDER ≠ "gemini") :
    (LLMService_ask_question db provider document_id question response).1 =
      [] ∧
    ((provide_document_context db document_id).isOk = true →
      (LLMService_ask_question db provider document_id question response).2 =
        .error (.unsupportedProvider ("Unsupported LLM provider: " ++
          settings.LLM_PROVIDER ++
          ". Supported providers: openai, anthropic, gemini"))) := by
  have hprov : provider = settings.LLM_PROVIDER := by
    rw [LLMService_init] at hinit
    by_cases hk : settings.LLM_API_KEY = ""
    · simp [hk] at hinit
    · simp [hk, hlower] at hinit
      exact hinit.symm
  subst hprov
  cases hc : provide_document_context db document_id with
  | error m =>
      refine ⟨?_, fun hok => ?_⟩
      · simp [LLMService_ask_question, hc]
      · simp [hc, Except.isOk, Except.toBool] at hok
  | ok mcp_context =>
      constructor
      · simp [LLMService_ask_question, hc, LLMService_call_llm_provider,
          h1, h2, h3]
      · intro _
        simp [LLMService_ask_question, hc, LLMService_call_llm_provider,
          h1, h2, h3]

/-- Witness for C6 at a concrete input: provider identifier `azure`. -/
theorem C6_witness :
    (LLMService_ask_question dbSample "azure" 7 "What is the deadline?"
        (ProviderResponse.ok "Friday.")).1 = [] ∧
    ((provide_document_context dbSample 7).isOk = true →
      (LLMService_ask_question dbSample "azure" 7 "What is the deadline?"
          (ProviderResponse.ok "Friday.")).2 =
        .error (.unsupportedProvider
          "Unsupported LLM provider: azure. Supported providers: openai, anthropic, gemini")) := by
  have h := C6_unknown_provider_no_backend_call dbSample
    ⟨"test-key", "azure", "m"⟩ 7 "What is the deadline?"
    (ProviderResponse.ok "Friday.") "azure" (by decide) (by decide)
    (by decide) (by decide) (by decide)
  exact ⟨h.1, fun hok => (h.2 hok).trans (by decide)⟩

/-- A successful provider dispatch means the backend's network call returned
text, and the dispatch result is that text stripped. -/
theorem call_llm_provider_ok (provider prompt : String)
    (response : ProviderResponse) (answer : String)
    (h : (LLMService_call_llm_provider provider prompt response).2 =
      .ok answer) :
    ∃ text, response = .ok text ∧ answer = py_strip text := by
  rw [LLMService_call_llm_provider] at h
  by_cases h1 : provider = "openai"
  · simp only [h1, if_pos rfl] at h
    cases response with
    | ok text => exact ⟨text, rfl, by simpa [LLMService_call_openai] using h.symm⟩
    | fail detail => simp [LLMService_call_openai] at h
  · by_cases h2 : provider = "anthropic"
    · simp only [h1, h2, if_neg, if_pos rfl, ite_false, ite_true] at h
      cases response with
      | ok text =>
          exact ⟨text, rfl, by simpa [LLMService_call_anthropic] using h.symm⟩
      | fail detail => simp [h1, LLMService_call_anthropic] at h
    · by_cases h3 : provider = "gemini"
      · simp only [h1, h2, h3, ite_false, ite_true] at h
        cases response with
        | ok text =>
            exact ⟨text, rfl, by simpa [LLMService_call_gemini] using h.symm⟩
        | fail detail => simp [h1, h2, LLMService_call_gemini] at h
      · simp [h1, h2, h3] at h

/-- A successful `ask_question` means the backend returned text. -/
theorem ask_question_ok (db : DB) (provider : String) (document_id : Nat)
    (question : String) (response : ProviderResponse) (answer : String)
    (h : (LLMService_ask_question db provider document_id question
        response).2 = .ok answer) :
    ∃ text, response = .ok text ∧ answer = py_strip text := by
  rw [LLMService_ask_question] at h
  cases hc : provide_document_context db document_id with
  | error m => rw [hc] at h; simp at h
  | ok mcp_context =>
      rw [hc] at h
      exact call_llm_provider_ok provider _ response answer h

/-- Exhaustive case analysis of `AskDocumentAIQuestion_mutate`: either some
check or call failed and the database is returned unchanged with an error, or
the provider returned text and exactly the one new conversation entry is
appended. -/
theorem ask_mutate_cases (db : DB) (user : User) (document_id : Nat)
    (question : String) (settings : LLMSettings)
    (response : ProviderResponse) :
    (∃ e, AskDocumentAIQuestion_mutate db user document_id question settings
        response = (db, .error e)) ∨
    (∃ text, response = .ok text ∧
      AskDocumentAIQuestion_mutate db user document_id question settings
          response =
        ({ db with conversations := db.conversations ++
            [⟨document_id, user.id, py_strip question, py_strip text⟩] },
          .ok ⟨document_id, user.id, py_strip question, py_strip text⟩)) := by
  by_cases hauth : user.is_authenticated = false
  · refine Or.inl ⟨.graphql "UNAUTHORIZED" "Authentication required.", ?_⟩
    simp [AskDocumentAIQuestion_mutate, hauth]
  · cases hdoc : findDocument db document_id with
    | none =>
        refine Or.inl ⟨.graphql "NOT_FOUND"
          ("Document " ++ toString document_id ++ " not found."), ?_⟩
        simp [AskDocumentAIQuestion_mutate, hauth, hdoc]
    | some document =>
        cases hacc : require_document_access db user.id
            document.organization with
        | error e =>
            refine Or.inl ⟨.graphql "PERMISSION_DENIED" e.message, ?_⟩
            simp [AskDocumentAIQuestion_mutate, hauth, hdoc, hacc]
        | ok u =>
            by_cases hq : py_strip question = ""
            · refine Or.inl ⟨.graphql "INVALID_INPUT"
                "Question cannot be empty.", ?_⟩
              simp [AskDocumentAIQuestion_mutate, hauth, hdoc, hacc, hq]
            · cases hinit : LLMService_init settings with
              | error m =>
                  refine Or.inl ⟨.graphql "LLM_ERROR"
                    ("Error calling LLM: " ++ m), ?_⟩
                  simp [AskDocumentAIQuestion_mutate, hauth, hdoc, hacc, hq,
                    hinit]
              | ok provider =>
                  cases hask : (LLMService_ask_question db provider
                      document_id (py_strip question) response).2 with
                  | error e =>
                      refine Or.inl ⟨.graphql "LLM_ERROR"
                        ("Error calling LLM: " ++ e.message), ?_⟩
                      simp [AskDocumentAIQuestion_mutate, hauth, hdoc, hacc,
                        hq, hinit, hask]
                  | ok answer =>
                      obtain ⟨text, hresp, hans⟩ :=
                        ask_question_ok db provider document_id
                          (py_strip question) response answer hask
                      subst hans
                      refine Or.inr ⟨text, hresp, ?_⟩
                      simp [AskDocumentAIQuestion_mutate, hauth, hdoc, hacc,
                        hq, hinit, hask]

/-- Claim C2: for every ask-question call, a conversation entry is created
only when the provider call returned non-failing text; when any step fails
(document lookup, permission, validation, context retrieval, or the provider
call), the database — in particular the conversation log — is returned
unchanged and no partial entry is written. -/
theorem C2_no_partial_conversation_write (db : DB) (user : User)
    (document_id : Nat) (question : String) (settings : LLMSettings)
    (response : ProviderResponse) :
    (∀ e, (AskDocumentAIQuestion_mutate db user document_id question settings
        response).2 = .error e →
      (AskDocumentAIQuestion_mutate db user document_id question settings
        response).1 = db) ∧
    (∀ conversation,
      (AskDocumentAIQuestion_mutate db user document_id question settings
        response).2 = .ok conversation →
      ∃ text, response = .ok text) := by
  rcases ask_mutate_cases db user document_id question settings response with
    ⟨e, he⟩ | ⟨text, hresp, hok⟩
  · rw [he]
    exact ⟨fun _ _ => rfl, fun conversation hc => by simp at hc⟩
  · rw [hok]
    exact ⟨fun e he => by simp at he, fun _ _ => ⟨text, hresp⟩⟩

/-- Witness for C2 at a concrete input: the provider call fails, the
database is unchanged. -/
theorem C2_witness :
    (AskDocumentAIQuestion_mutate dbSample memberUser 7 "What is the deadline?"
        settingsSample (ProviderResponse.fail "boom")).1 = dbSample :=
  (C2_no_partial_conversation_write dbSample memberUser 7
      "What is the deadline?" settingsSample (ProviderResponse.fail "boom")).1
    (.graphql "LLM_ERROR" "Error calling LLM: OpenAI API error: boom")
    (by decide)

/-- Counterexample for C7 as stated: the question is submitted with
surrounding whitespace, the call succeeds, and the stored question is the
stripped text, not the verbatim text as submitted. -/
theorem C7_counterexample :
    (AskDocumentAIQuestion_mutate dbSample memberUser 7
        " What is the deadline? " settingsSample
        (ProviderResponse.ok "Tomorrow.")).2 =
      .ok ⟨7, 2, "What is the deadline?", "Tomorrow."⟩ ∧
    "What is the deadline?" ≠ " What is the deadline? " := by
  exact ⟨by decide, by decide⟩

/-- Claim C7 as amended: for every successful ask-question call, exactly one
new conversation entry is appended, linked to the document and the calling
user, holding the question text stripped of leading and trailing whitespace
(as sent to the provider) and the provider's returned text (itself stripped
by the backend adapter) as the answer. -/
theorem C7_conversation_append (db : DB) (user : User) (document_id : Nat)
    (question : String) (settings : LLMSettings)
    (response : ProviderResponse) (conversation : AIConversation)
    (h : (AskDocumentAIQuestion_mutate db user document_id question settings
        response).2 = .ok conversation) :
    (AskDocumentAIQuestion_mutate db user document_id question settings
        response).1.conversations = db.conversations ++ [conversation] ∧
    conversation.document = document_id ∧
    conversation.user = user.id ∧
    conversation.question = py_strip question ∧
    ∃ text, response = .ok text ∧ conversation.answer = py_strip text := by
  rcases ask_mutate_cases db user document_id question settings response with
    ⟨e, he⟩ | ⟨text, hresp, hok⟩
  · rw [he] at h; simp at h
  · rw [hok] at h
    simp only [Except.ok.injEq] at h
    subst h
    rw [hok]
    exact ⟨rfl, rfl, rfl, rfl, text, hresp, rfl⟩

/-- Witness for C7's amended theorem at a concrete input. -/
theorem C7_witness :
    (AskDocumentAIQuestion_mutate dbSample memberUser 7
        " What is the deadline? " settingsSample
        (ProviderResponse.ok " Tomorrow. ")).1.conversations =
      dbSample.conversations ++
        [⟨7, 2, "What is the deadline?", "Tomorrow."⟩] :=
  (C7_conversation_append dbSample memberUser 7 " What is the deadline? "
    settingsSample (ProviderResponse.ok " Tomorrow. ")
    ⟨7, 2, "What is the deadline?", "Tomorrow."⟩ (by decide)).1

/-- Claim C3 (code bug): a MEMBER (non-ADMIN) user with an active
organization attempts to create a document.  Because documents/schema.py
calls `require_organization_admin` without importing it, the resolver raises
`NameError` — not the `InsufficientRole` permission error — and no document
row is created. -/
theorem C3_create_document_name_error :
    CreateDocument_mutate dbSample memberUser "Launch Plan" "text" =
      (dbSample, .error (.nameError
        "name \x27require_organization_admin\x27 is not defined")) ∧
    (CreateDocument_mutate dbSample memberUser "Launch Plan" "text").1.documents
      = dbSample.documents := by
  exact ⟨by decide, by decide⟩

/-- The membership filter agrees with the propositional pair equality. -/
theorem membershipMatches_iff (user_id organization_id : Nat)
    (m : OrganizationMembership) :
    membershipMatches user_id organization_id m = true ↔
      m.user = user_id ∧ m.organization = organization_id := by
  simp [membershipMatches]

/-- `check_user_in_organization` is true iff a matching membership exists. -/
theorem check_user_in_organization_iff (db : DB)
    (user_id organization_id : Nat) :
    check_user_in_organization db user_id organization_id = true ↔
      ∃ m ∈ db.memberships,
        m.user = user_id ∧ m.organization = organization_id := by
  simp [check_user_in_organization, List.any_eq_true, membershipMatches]

/-- `get_user_role_in_organization` is `none` iff no membership matches. -/
theorem get_user_role_none_iff (db : DB) (user_id organization_id : Nat) :
    get_user_role_in_organization db user_id organization_id = none ↔
      ∀ m ∈ db.memberships,
        ¬(m.user = user_id ∧ m.organization = organization_id) := by
  simp [get_user_role_in_organization, List.find?_eq_none, membershipMatches]

/-- A reported role comes from a matching membership row. -/
theorem get_user_role_some (db : DB) (user_id organization_id : Nat)
    (r : Role)
    (h : get_user_role_in_organization db user_id organization_id = some r) :
    ∃ m ∈ db.memberships, m.user = user_id ∧ m.organization = organization_id
      ∧ m.role = r := by
  rw [get_user_role_in_organization, Option.map_eq_some'] at h
  obtain ⟨m, hfind, hrole⟩ := h
  have hmem := List.mem_of_find?_eq_some hfind
  have hmatch := (membershipMatches_iff user_id organization_id m).mp
    (List.find?_some hfind)
  exact ⟨m, hmem, hmatch.1, hmatch.2, hrole⟩

/-- Under the `unique_together` constraint, the reported role is the role of
any matching membership row. -/
theorem get_user_role_of_mem (db : DB) (user_id organization_id : Nat)
    (huniq : db.memberships.Pairwise
      (fun a b => ¬(a.user = b.user ∧ a.organization = b.organization)))
    (m : OrganizationMembership) (hm : m ∈ db.memberships)
    (h1 : m.user = user_id) (h2 : m.organization = organization_id) :
    get_user_role_in_organization db user_id organization_id = some m.role := by
  have hsym : Symmetric
      (fun a b : OrganizationMembership =>
        ¬(a.user = b.user ∧ a.organization = b.organization)) :=
    fun a b hab hba => hab ⟨hba.1.symm, hba.2.symm⟩
  cases hr : get_user_role_in_organization db user_id organization_id with
  | none => exact absurd ⟨h1, h2⟩ ((get_user_role_none_iff _ _ _).mp hr m hm)
  | some r =>
      obtain ⟨m', hm', h1', h2', hrole'⟩ :=
        get_user_role_some db user_id organization_id r hr
      by_cases heq : m = m'
      · rw [heq, hrole']
      · exact absurd ⟨h1.trans h1'.symm, h2.trans h2'.symm⟩
          (List.Pairwise.forall hsym huniq hm hm' heq)

/-- Claim C4: for all (user, organization) pairs (with the store's
unique-membership constraint), `require_organization_admin` succeeds iff a
membership with role ADMIN exists for the pair, failing with the
not-a-member error when no membership exists and with the insufficient-role
error when a membership exists with a role other than ADMIN; and
`require_organization_member` succeeds iff any membership exists for the
pair, regardless of role. -/
theorem C4_require_admin_member_characterization (db : DB)
    (user_id organization_id : Nat)
    (huniq : db.memberships.Pairwise
      (fun a b => ¬(a.user = b.user ∧ a.organization = b.organization))) :
    ((require_organization_member db user_id organization_id).isOk = true ↔
      ∃ m ∈ db.memberships,
        m.user = user_id ∧ m.organization = organization_id) ∧
    ((require_organization_admin db user_id organization_id).isOk = true ↔
      ∃ m ∈ db.memberships, m.user = user_id ∧
        m.organization = organization_id ∧ m.role = Role.ADMIN) ∧
    ((¬ ∃ m ∈ db.memberships,
        m.user = user_id ∧ m.organization = organization_id) →
      require_organization_admin db user_id organization_id =
        .error (.notAMember ("User is not a member of organization \x22" ++
          organization_display_name db organization_id ++
          "\x22. Only administrators can perform this action."))) ∧
    (∀ m ∈ db.memberships, m.user = user_id → m.organization = organization_id
      → m.role ≠ Role.ADMIN →
      require_organization_admin db user_id organization_id =
        .error (.insufficientRole
          ("User must be an ADMIN in organization \x22" ++
            organization_display_name db organization_id ++
            "\x22 to perform this action. Current role: " ++
            m.role.valueStr ++ "."))) := by
  refine ⟨?_, ?_, ?_, ?_⟩
  · by_cases hc : check_user_in_organization db user_id organization_id
    · simp only [require_organization_member, if_pos hc]
      exact ⟨fun _ => (check_user_in_organization_iff db user_id
        organization_id).mp hc, fun _ => rfl⟩
    · simp only [require_organization_member, if_neg hc]
      constructor
      · intro h; simp [Except.isOk, Except.toBool] at h
      · intro hex
        exact absurd ((check_user_in_organization_iff db user_id
          organization_id).mpr hex) hc
  · constructor
    · intro hok
      cases hr : get_user_role_in_organization db user_id organization_id with
      | none =>
          rw [require_organization_admin] at hok
          rw [hr] at hok
          simp [Except.isOk, Except.toBool] at hok
      | some r =>
          cases r with
          | ADMIN =>
              obtain ⟨m, hm, h1, h2, h3⟩ :=
                get_user_role_some db user_id organization_id Role.ADMIN hr
              exact ⟨m, hm, h1, h2, h3⟩
          | MEMBER =>
              rw [require_organization_admin] at hok
              rw [hr] at hok
              simp [Except.isOk, Except.toBool] at hok
    · rintro ⟨m, hm, h1, h2, h3⟩
      have hrole := get_user_role_of_mem db user_id organization_id huniq
        m hm h1 h2
      rw [h3] at hrole
      simp [require_organization_admin, hrole, Except.isOk, Except.toBool]
  · intro hnone
    have hr : get_user_role_in_organization db user_id organization_id =
        none :=
      (get_user_role_none_iff db user_id organization_id).mpr
        (fun m hm hmp => hnone ⟨m, hm, hmp⟩)
    rw [require_organization_admin, hr]
  · intro m hm h1 h2 hne
    have hrole := get_user_role_of_mem db user_id organization_id huniq
      m hm h1 h2
    cases hmr : m.role with
    | ADMIN => exact absurd hmr hne
    | MEMBER =>
        rw [hmr] at hrole
        rw [require_organization_admin, hrole]

/-- Witness for C4 at a concrete input: user 2 is a MEMBER of organization 1
in the sample database, so the admin check reports insufficient role. -/
theorem C4_witness :
    require_organization_admin dbSample 2 1 =
      .error (.insufficientRole
        ("User must be an ADMIN in organization \x22" ++
          organization_display_name dbSample 1 ++
          "\x22 to perform this action. Current role: " ++
          (Role.MEMBER).valueStr ++ ".")) :=
  (C4_require_admin_member_characterization dbSample 2 1 (by decide)).2.2.2
    ⟨2, 1, Role.MEMBER⟩ (by decide) rfl rfl (by decide)

/-- Updating a membership row's role does not change the number of rows. -/
theorem update_membership_role_length (u o : Nat) (r : Role) :
    ∀ l : List OrganizationMembership,
      (update_membership_role l u o r).length = l.length := by
  intro l
  induction l with
  | nil => rfl
  | cons m rest ih =>
      rw [update_membership_role]
      by_cases h : membershipMatches u o m
      · rw [if_pos h]; simp
      · rw [if_neg h]; simp [ih]

/-- Every row of the updated table has the (user, organization) pair of some
row of the original table. -/
theorem mem_update_membership_role (u o : Nat) (r : Role) :
    ∀ (l : List OrganizationMembership) (b : OrganizationMembership),
      b ∈ update_membership_role l u o r →
      ∃ a ∈ l, b.user = a.user ∧ b.organization = a.organization := by
  intro l
  induction l with
  | nil => intro b hb; cases hb
  | cons m rest ih =>
      intro b hb
      rw [update_membership_role] at hb
      by_cases h : membershipMatches u o m
      · rw [if_pos h] at hb
        rcases List.mem_cons.mp hb with rfl | hb
        · exact ⟨m, List.mem_cons_self m rest, rfl, rfl⟩
        · exact ⟨b, List.mem_cons_of_mem m hb, rfl, rfl⟩
      · rw [if_neg h] at hb
        rcases List.mem_cons.mp hb with rfl | hb
        · exact ⟨b, List.mem_cons_self b rest, rfl, rfl⟩
        · obtain ⟨a, ha, h1, h2⟩ := ih b hb
          exact ⟨a, List.mem_cons_of_mem m ha, h1, h2⟩

/-- Updating a role preserves the pairwise uniqueness of (user,
organization) pairs. -/
theorem update_membership_role_pairwise (u o : Nat) (r : Role) :
    ∀ l : List OrganizationMembership,
      l.Pairwise
        (fun a b => ¬(a.user = b.user ∧ a.organization = b.organization)) →
      (update_membership_role l u o r).Pairwise
        (fun a b => ¬(a.user = b.user ∧ a.organization = b.organization)) := by
  intro l
  induction l with
  | nil => intro h; exact h
  | cons m rest ih =>
      intro hp
      obtain ⟨hm, hrest⟩ := List.pairwise_cons.mp hp
      rw [update_membership_role]
      by_cases h : membershipMatches u o m
      · rw [if_pos h]
        exact List.pairwise_cons.mpr ⟨fun b hb => hm b hb, hrest⟩
      · rw [if_neg h]
        refine List.pairwise_cons.mpr ⟨?_, ih hrest⟩
        intro b hb hcontra
        obtain ⟨a, ha, h1, h2⟩ := mem_update_membership_role u o r rest b hb
        exact hm a ha ⟨hcontra.1.trans h1, hcontra.2.trans h2⟩

/-- Exhaustive case analysis of `InviteUserToOrganization_mutate`: either a
check failed and the database is unchanged, or it succeeded and either the
existing membership's role already matched, or its role was updated in
place, or a new membership row was appended because none existed. -/
theorem invite_mutate_cases (db : DB) (user : User) (organization_id : Nat)
    (user_email role_str : String) :
    (∃ e, InviteUserToOrganization_mutate db user organization_id user_email
        role_str = (db, .error e)) ∨
    (∃ organization invite_user role,
      findOrganization db organization_id = some organization ∧
      db.users.find? (fun u => u.email == user_email) = some invite_user ∧
      ((role_str = "ADMIN" ∧ role = Role.ADMIN) ∨
        (role_str = "MEMBER" ∧ role = Role.MEMBER)) ∧
      ((∃ membership,
          db.memberships.find?
            (membershipMatches invite_user.id organization.id) =
              some membership ∧
          membership.role = role ∧
          InviteUserToOrganization_mutate db user organization_id user_email
            role_str = (db, .ok membership)) ∨
       (∃ membership,
          db.memberships.find?
            (membershipMatches invite_user.id organization.id) =
              some membership ∧
          membership.role ≠ role ∧
          InviteUserToOrganization_mutate db user organization_id user_email
              role_str =
            ({ db with
                memberships := update_membership_role db.memberships
                  invite_user.id organization.id role },
              .ok { membership with role := role })) ∨
       (db.memberships.find?
          (membershipMatches invite_user.id organization.id) = none ∧
        InviteUserToOrganization_mutate db user organization_id user_email
            role_str =
          ({ db with
              memberships := db.memberships ++
                [⟨invite_user.id, organization.id, role⟩] },
            .ok ⟨invite_user.id, organization.id, role⟩)))) := by
  by_cases hauth : user.is_authenticated = false
  · refine Or.inl ⟨.graphql "UNAUTHORIZED" "Authentication required.", ?_⟩
    simp [InviteUserToOrganization_mutate, hauth]
  · cases hadmin : require_organization_admin db user.id organization_id with
    | error e =>
        refine Or.inl ⟨.graphql "PERMISSION_DENIED" e.message, ?_⟩
        simp [InviteUserToOrganization_mutate, hauth, hadmin]
    | ok u0 =>
        cases horg : findOrganization db organization_id with
        | none =>
            refine Or.inl ⟨.graphql "NOT_FOUND"
              ("Organization " ++ toString organization_id ++ " not found."),
              ?_⟩
            simp [InviteUserToOrganization_mutate, hauth, hadmin, horg]
        | some organization =>
            cases huser : db.users.find? (fun u => u.email == user_email) with
            | none =>
                refine Or.inl ⟨.graphql "USER_NOT_FOUND"
                  ("User with email " ++ user_email ++ " does not exist."),
                  ?_⟩
                simp [InviteUserToOrganization_mutate, hauth, hadmin, horg,
                  huser]
            | some invite_user =>
                by_cases hA : role_str = "ADMIN"
                · refine Or.inr ⟨organization, invite_user, Role.ADMIN, rfl,
                    rfl, Or.inl ⟨hA, rfl⟩, ?_⟩
                  cases hfind : db.memberships.find?
                      (membershipMatches invite_user.id organization.id) with
                  | some membership =>
                      by_cases hre : membership.role = Role.ADMIN
                      · refine Or.inl ⟨membership, rfl, hre, ?_⟩
                        simp [InviteUserToOrganization_mutate, hauth, hadmin,
                          horg, huser, hA, hfind, hre]
                      · refine Or.inr (Or.inl ⟨membership, rfl, hre, ?_⟩)
                        simp [InviteUserToOrganization_mutate, hauth, hadmin,
                          horg, huser, hA, hfind, hre]
                  | none =>
                      refine Or.inr (Or.inr ⟨rfl, ?_⟩)
                      simp [InviteUserToOrganization_mutate, hauth, hadmin,
                        horg, huser, hA, hfind]
                · by_cases hM : role_str = "MEMBER"
                  · have hAM : ("MEMBER" : String) ≠ "ADMIN" := by decide
                    refine Or.inr ⟨organization, invite_user, Role.MEMBER,
                      rfl, rfl, Or.inr ⟨hM, rfl⟩, ?_⟩
                    cases hfind : db.memberships.find?
                        (membershipMatches invite_user.id organization.id) with
                    | some membership =>
                        by_cases hre : membership.role = Role.MEMBER
                        · refine Or.inl ⟨membership, rfl, hre, ?_⟩
                          simp [InviteUserToOrganization_mutate, hauth,
                            hadmin, horg, huser, hM, hAM, hfind, hre]
                        · refine Or.inr (Or.inl ⟨membership, rfl, hre, ?_⟩)
                          simp [InviteUserToOrganization_mutate, hauth,
                            hadmin, horg, huser, hM, hAM, hfind, hre]
                    | none =>
                        refine Or.inr (Or.inr ⟨rfl, ?_⟩)
                        simp [InviteUserToOrganization_mutate, hauth, hadmin,
                          horg, huser, hM, hAM, hfind]
                  · refine Or.inl ⟨.graphql "INVALID_INPUT"
                      ("Invalid role: " ++ role_str ++
                        ". Must be one of: ADMIN, MEMBER."), ?_⟩
                    simp [InviteUserToOrganization_mutate, hauth, hadmin,
                      horg, huser, hA, hM]

/-- Claim C9: the (user, organization) pair of a membership is unique — the
invite mutation preserves pairwise uniqueness of the membership table — and
inviting a user who already has a membership in the organization updates the
existing membership's role to the requested role instead of creating a
second membership row (the table's size is unchanged). -/
theorem C9_membership_unique_invite_updates :
    (∀ (db : DB) (user : User) (organization_id : Nat)
        (user_email role_str : String),
      db.memberships.Pairwise
        (fun a b => ¬(a.user = b.user ∧ a.organization = b.organization)) →
      (InviteUserToOrganization_mutate db user organization_id user_email
          role_str).1.memberships.Pairwise
        (fun a b => ¬(a.user = b.user ∧ a.organization = b.organization))) ∧
    (∀ (db : DB) (user : User) (organization_id : Nat)
        (user_email role_str : String) (invite_user : User)
        (m0 mem : OrganizationMembership),
      db.users.find? (fun u => u.email == user_email) = some invite_user →
      m0 ∈ db.memberships → m0.user = invite_user.id →
      m0.organization = organization_id →
      (InviteUserToOrganization_mutate db user organization_id user_email
          role_str).2 = .ok mem →
      (InviteUserToOrganization_mutate db user organization_id user_email
          role_str).1.memberships.length = db.memberships.length ∧
      mem.user = invite_user.id ∧ mem.organization = organization_id ∧
      (role_str = "ADMIN" → mem.role = Role.ADMIN) ∧
      (role_str = "MEMBER" → mem.role = Role.MEMBER)) := by
  constructor
  · intro db user organization_id user_email role_str huniq
    rcases invite_mutate_cases db user organization_id user_email role_str
      with ⟨e, he⟩ |
        ⟨organization, invite_user, role, horg, huser, hrs, hbr⟩
    · rw [he]; exact huniq
    · rcases hbr with ⟨membership, hfind, hre, heq⟩ |
        ⟨membership, hfind, hre, heq⟩ | ⟨hfind, heq⟩
      · rw [heq]; exact huniq
      · rw [heq]
        exact update_membership_role_pairwise invite_user.id organization.id
          role db.memberships huniq
      · rw [heq]
        refine List.pairwise_append.mpr ⟨huniq, ?_, ?_⟩
        · simp
        · intro a ha b hb
          rw [List.mem_singleton] at hb
          subst hb
          intro hcontra
          exact List.find?_eq_none.mp hfind a ha
            ((membershipMatches_iff invite_user.id organization.id a).mpr
              ⟨hcontra.1, hcontra.2⟩)
  · intro db user organization_id user_email role_str invite_user m0 mem
      huser0 hm0 h1 h2 hok
    rcases invite_mutate_cases db user organization_id user_email role_str
      with ⟨e, he⟩ |
        ⟨organization, invite_user', role, horg, huser, hrs, hbr⟩
    · rw [he] at hok; simp at hok
    · have hiu : invite_user' = invite_user := by
        rw [huser] at huser0
        exact Option.some.inj huser0
      subst hiu
      rw [findOrganization] at horg
      have horgid : organization.id = organization_id := by
        simpa using List.find?_some horg
      rcases hbr with ⟨membership, hfind, hre, heq⟩ |
        ⟨membership, hfind, hre, heq⟩ | ⟨hfind, heq⟩
      · rw [heq] at hok
        simp only [Except.ok.injEq] at hok
        subst hok
        have hmatch := (membershipMatches_iff invite_user'.id organization.id
          membership).mp (List.find?_some hfind)
        refine ⟨by rw [heq], hmatch.1, hmatch.2.trans horgid, ?_, ?_⟩
        · intro hA
          rcases hrs with ⟨_, hr⟩ | ⟨hM, _⟩
          · exact hre.trans hr
          · exact absurd (hA ▸ hM) (by decide)
        · intro hM
          rcases hrs with ⟨hA, _⟩ | ⟨_, hr⟩
          · exact absurd (hM ▸ hA) (by decide)
          · exact hre.trans hr
      · rw [heq] at hok
        simp only [Except.ok.injEq] at hok
        subst hok
        have hmatch := (membershipMatches_iff invite_user'.id organization.id
          membership).mp (List.find?_some hfind)
        refine ⟨?_, hmatch.1, hmatch.2.trans horgid, ?_, ?_⟩
        · rw [heq]
          exact update_membership_role_length invite_user'.id organization.id
            role db.memberships
        · intro hA
          rcases hrs with ⟨_, hr⟩ | ⟨hM, _⟩
          · exact hr
          · exact absurd (hA ▸ hM) (by decide)
        · intro hM
          rcases hrs with ⟨hA, _⟩ | ⟨_, hr⟩
          · exact absurd (hM ▸ hA) (by decide)
          · exact hr
      · exact absurd
          ((membershipMatches_iff invite_user'.id organization.id m0).mpr
            ⟨h1, h2.trans horgid.symm⟩)
          (List.find?_eq_none.mp hfind m0 hm0)

/-- Witness for C9 at a concrete input: inviting user 2, already a MEMBER of
organization 1, with role ADMIN updates the row instead of duplicating. -/
theorem C9_witness :
    (InviteUserToOrganization_mutate dbSample adminUser 1 "member@acme.test"
        "ADMIN").1.memberships.length = dbSample.memberships.length ∧
    (⟨2, 1, Role.ADMIN⟩ : OrganizationMembership).user = memberUser.id ∧
    (⟨2, 1, Role.ADMIN⟩ : OrganizationMembership).organization = 1 ∧
    ("ADMIN" = "ADMIN" →
      (⟨2, 1, Role.ADMIN⟩ : OrganizationMembership).role = Role.ADMIN) ∧
    ("ADMIN" = "MEMBER" →
      (⟨2, 1, Role.ADMIN⟩ : OrganizationMembership).role = Role.MEMBER) :=
  C9_membership_unique_invite_updates.2 dbSample adminUser 1
    "member@acme.test" "ADMIN" memberUser ⟨2, 1, Role.MEMBER⟩
    ⟨2, 1, Role.ADMIN⟩ (by decide) (by decide) rfl rfl (by decide)

/-- Claim C10: `SetActiveOrganization` fails with the not-a-member error for
any user who is not a member of the given organization, leaving the database
unchanged; on success it persists the new active-organization id on the
calling user's record and changes nothing else — no other user rows and no
membership, organization, document, or conversation rows are modified. -/
theorem C10_set_active_organization_frame (db : DB) (user : User)
    (organization_id : Nat)
    (hauth : user.is_authenticated = true)
    (hwf : ∀ m ∈ db.memberships, ∃ o ∈ db.organizations,
      o.id = m.organization) :
    (check_user_in_organization db user.id organization_id = false →
      SetActiveOrganization_mutate db user organization_id =
        (db, .error (.graphql "PERMISSION_DENIED"
          ("User is not a member of organization " ++
            toString organization_id ++ ".")))) ∧
    (check_user_in_organization db user.id organization_id = true →
      ∃ organization,
        (SetActiveOrganization_mutate db user organization_id).2 =
          .ok (true, organization) ∧
        (SetActiveOrganization_mutate db user organization_id).1.organizations
          = db.organizations ∧
        (SetActiveOrganization_mutate db user organization_id).1.memberships
          = db.memberships ∧
        (SetActiveOrganization_mutate db user organization_id).1.documents
          = db.documents ∧
        (SetActiveOrganization_mutate db user organization_id).1.conversations
          = db.conversations ∧
        (SetActiveOrganization_mutate db user organization_id).1.users.length
          = db.users.length ∧
        (∀ u ∈ db.users, u.id ≠ user.id →
          u ∈ (SetActiveOrganization_mutate db user
            organization_id).1.users) ∧
        (∀ u ∈ db.users, u.id = user.id →
          { u with active_organization_id := some organization_id } ∈
            (SetActiveOrganization_mutate db user organization_id).1.users))
    := by
  have hauth' : ¬(user.is_authenticated = false) := by simp [hauth]
  constructor
  · intro hmem
    simp [SetActiveOrganization_mutate, hauth', hmem]
  · intro hmem
    obtain ⟨m, hm, hmu, hmo⟩ :=
      (check_user_in_organization_iff db user.id organization_id).mp hmem
    obtain ⟨o, ho, hoid⟩ := hwf m hm
    have horg : ∃ organization,
        db.organizations.find? (fun x => x.id == organization_id) =
          some organization :=
      find?_isSome_of_exists ⟨o, ho, by simp [hoid, hmo]⟩
    obtain ⟨organization, horg⟩ := horg
    have horg' : findOrganization db organization_id = some organization :=
      horg
    have hmain : SetActiveOrganization_mutate db user organization_id =
        ({ db with
            users := db.users.map (fun v : User =>
              if v.id == user.id then
                { v with active_organization_id := some organization_id }
              else v) },
          .ok (true, organization)) := by
      simp [SetActiveOrganization_mutate, hauth', hmem, horg']
    refine ⟨organization, ?_, ?_, ?_, ?_, ?_, ?_, ?_, ?_⟩
    · rw [hmain]
    · rw [hmain]
    · rw [hmain]
    · rw [hmain]
    · rw [hmain]
    · rw [hmain]
      exact List.length_map db.users _
    · intro u hu hne
      have hf : (fun v : User =>
          if v.id == user.id then
            { v with active_organization_id := some organization_id }
          else v) u = u := by
        have : (u.id == user.id) = false := by simp [hne]
        simp [this]
      rw [hmain]
      exact hf ▸ List.mem_map_of_mem _ hu
    · intro u hu heq
      have hf : (fun v : User =>
          if v.id == user.id then
            { v with active_organization_id := some organization_id }
          else v) u =
          { u with active_organization_id := some organization_id } := by
        have : (u.id == user.id) = true := by simp [heq]
        simp [this]
      rw [hmain]
      exact hf ▸ List.mem_map_of_mem _ hu

/-- Witness for C10 at a concrete input: user 3 is not a member of
organization 1, the mutation fails and the database is unchanged. -/
theorem C10_witness :
    SetActiveOrganization_mutate dbSample strangerUser 1 =
      (dbSample, .error (.graphql "PERMISSION_DENIED"
        ("User is not a member of organization " ++ toString 1 ++ "."))) :=
  (C10_set_active_organization_frame dbSample strangerUser 1 (by decide)
    (by decide)).1 (by decide)
